import Mathlib

/-!
# PulseShrine — verification of the core services

Shallow embedding of the PulseShrine backend (Python) into Lean 4.

Conventions of the embedding:
* Python `float` arithmetic is modelled by exact rational arithmetic (`ℚ`);
  Python `int` by `ℕ`/`ℤ`.
* DynamoDB tables are modelled as finite maps / small state records; a
  conditional put (`attribute_not_exists(...)`) is modelled as an
  insert-if-absent on the relevant key.
* The string- and regex-matching layer of the worthiness service
  (`worthiness_service.py`) is abstracted into its integer/boolean match
  results (`ContentAnalysis`); all arithmetic downstream of the matching is
  translated exactly.
-/

namespace PulseShrine

/-! ## Budget tiers and daily usage
(`shared/services/ai_budget_service.py`, `BUDGET_TIERS` and
`can_afford_enhancement`, lines 18-34 and 215-238) -/

/-- User tier, `shared/services/ai_budget_service.py` `BUDGET_TIERS` keys. -/
inductive Tier
  | free
  | premium
  | unlimited
deriving DecidableEq, Repr

/-- `BUDGET_TIERS[tier]["daily_base_cents"]`. -/
def dailyBaseCents : Tier → ℚ
  | .free => 5
  | .premium => 18
  | .unlimited => 75

/-- `BUDGET_TIERS[tier]["daily_bonus_credits"]`. -/
def dailyBonusCredits : Tier → ℚ
  | .free => 0
  | .premium => 2
  | .unlimited => 25

/-- `BUDGET_TIERS[tier]["monthly_cap_cents"]`. -/
def monthlyCapCents : Tier → ℚ
  | .free => 30
  | .premium => 375
  | .unlimited => 1000

/-- The fields of the `UsageDay` record that the admission check reads
(`get_or_create_daily_usage` returns more fields; only the ones consulted by
`can_afford_enhancement` / `get_user_budget` are modelled). -/
structure DailyUsage where
  dailyCostCents : ℚ
  monthlyCostCents : ℚ
  dailyAiCredits : ℚ
  userTier : Tier
deriving DecidableEq, Repr

/-- `get_user_budget(...)["total_daily_available"]`:
`tier_config["daily_base_cents"] + usage["daily_ai_credits"]`. -/
def totalDailyAvailable (usage : DailyUsage) : ℚ :=
  dailyBaseCents usage.userTier + usage.dailyAiCredits

/-- The reason string returned by `can_afford_enhancement`. -/
inductive BudgetReason
  | monthlyExceeded
  | wouldExceedMonthly
  | dailyExceeded
  | available
deriving DecidableEq, Repr

/-- `AIBudgetService.can_afford_enhancement` (ai_budget_service.py lines
215-238), on a single usage snapshot: three sequential checks, in source
order, returning `(can_afford, reason)`. -/
def can_afford_enhancement (usage : DailyUsage) (estimatedCostCents : ℚ) :
    Bool × BudgetReason :=
  if monthlyCapCents usage.userTier ≤ usage.monthlyCostCents then
    (false, .monthlyExceeded)
  else if monthlyCapCents usage.userTier < usage.monthlyCostCents + estimatedCostCents then
    (false, .wouldExceedMonthly)
  else if totalDailyAvailable usage < usage.dailyCostCents + estimatedCostCents then
    (false, .dailyExceeded)
  else
    (true, .available)

/-- A free-tier usage snapshot sitting exactly at the monthly cap with no
daily spend. -/
def usageAtMonthlyCap : DailyUsage :=
  { dailyCostCents := 0, monthlyCostCents := 30, dailyAiCredits := 0, userTier := .free }

/-! ## Worthiness thresholds and value-first selection
(`shared/services/worthiness_service.py` lines 23-24 and
`ai_selection/app.py` `should_enhance_with_ai`, lines 187-321) -/

/-- `EXCEPTIONAL_THRESHOLD` (worthiness_service.py line 23). -/
def EXCEPTIONAL_THRESHOLD : ℚ := 0.8

/-- `GOOD_THRESHOLD` (worthiness_service.py line 24). -/
def GOOD_THRESHOLD : ℚ := 0.4

/-- Decision reason of `should_enhance_with_ai`, as a sum type in place of the
reason strings of the source. -/
inductive DecisionReason
  | disabled
  | budget (r : BudgetReason)
  | exceptional
  | goodRoll
  | lowRoll
  | lowWorthiness
deriving DecidableEq, Repr

/-- The `(should_enhance, reason, selection_info)` triple returned by
`should_enhance_with_ai`; of `selection_info` only the `could_be_enhanced`
key is modelled (`none` when the returned dict omits the key, as in the
disabled branch). -/
structure SelectionResult where
  shouldEnhance : Bool
  reason : DecisionReason
  couldBeEnhanced : Option Bool
deriving DecidableEq, Repr

/-- `should_enhance_with_ai` (ai_selection/app.py lines 187-321), with the
worthiness score, the estimated cost and the uniform draw `random.random()`
passed in as values (the source computes the first two from the pulse and
draws the third). Branch order follows the source: disabled check, budget
check, then the value-first decision. -/
def should_enhance_with_ai (enabled : Bool) (score estimatedCostCents u : ℚ)
    (usage : DailyUsage) : SelectionResult :=
  if !enabled then
    ⟨false, .disabled, none⟩
  else
    match can_afford_enhancement usage estimatedCostCents with
    | (false, r) => ⟨false, .budget r, some true⟩
    | (true, _) =>
      if EXCEPTIONAL_THRESHOLD ≤ score then
        ⟨true, .exceptional, some true⟩
      else if GOOD_THRESHOLD ≤ score then
        if u < min ((score - GOOD_THRESHOLD) / (EXCEPTIONAL_THRESHOLD - GOOD_THRESHOLD) * 1.5) 1 then
          ⟨true, .goodRoll, some true⟩
        else
          ⟨false, .lowRoll, some true⟩
      else
        ⟨false, .lowWorthiness, some true⟩

/-- Probability that the value-first stage accepts a score: the measure of
`u ∈ [0,1)` with `should_enhance_with_ai` accepting. -/
def acceptProbability (score : ℚ) : ℚ :=
  if EXCEPTIONAL_THRESHOLD ≤ score then 1
  else if GOOD_THRESHOLD ≤ score then
    min ((score - GOOD_THRESHOLD) / (EXCEPTIONAL_THRESHOLD - GOOD_THRESHOLD) * 1.5) 1
  else 0

/-! ## Worthiness scorer (`shared/services/worthiness_service.py`) -/

/-- `WorthinessCalculator._calculate_length_score` (lines 234-249), on
`total_chars = len(intent) + len(reflection)`. -/
def lengthScore (totalChars : ℕ) : ℚ :=
  if 350 ≤ totalChars then 1
  else if 250 ≤ totalChars then 0.8 + ((totalChars : ℚ) - 250) / 100 * 0.2
  else if 150 ≤ totalChars then 0.5 + ((totalChars : ℚ) - 150) / 100 * 0.3
  else if 50 ≤ totalChars then 0.2 + ((totalChars : ℚ) - 50) / 100 * 0.3
  else (totalChars : ℚ) / 50 * 0.2

/-- `WorthinessCalculator._calculate_duration_score` (lines 251-267);
`duration_minutes = duration_seconds / 60`. -/
def durationScore (durationSeconds : ℤ) : ℚ :=
  if 90 ≤ (durationSeconds : ℚ) / 60 then 1
  else if 60 ≤ (durationSeconds : ℚ) / 60 then
    0.8 + ((durationSeconds : ℚ) / 60 - 60) / 30 * 0.2
  else if 30 ≤ (durationSeconds : ℚ) / 60 then
    0.6 + ((durationSeconds : ℚ) / 60 - 30) / 30 * 0.2
  else if 20 ≤ (durationSeconds : ℚ) / 60 then
    0.4 + ((durationSeconds : ℚ) / 60 - 20) / 10 * 0.2
  else if 10 ≤ (durationSeconds : ℚ) / 60 then
    0.2 + ((durationSeconds : ℚ) / 60 - 10) / 10 * 0.2
  else (durationSeconds : ℚ) / 60 / 10 * 0.2

/-- Results of the string/regex matching performed by
`_calculate_reflection_depth`, `_calculate_emotion_score` and
`_calculate_specificity_score`: the matcher itself (Python `in` and `re`)
is external to the embedding, its outputs are these counts and flags. -/
structure ContentAnalysis where
  breakthroughCount : ℕ
  firstDomainMatches : ℕ
  positiveEndEmotion : Bool
  negativeToPositive : Bool
  eliteEndEmotion : Bool
  hasNumericMetric : Bool
  techMatches1 : Bool
  techMatches2 : Bool
  techMatches3 : Bool
  hasTwoLongSentences : Bool
  actionVerbCount : ℕ
deriving DecidableEq, Repr

/-- Breakthrough-word component: `min(0.3, breakthrough_count * 0.1)` (line 279). -/
def breakthroughScore (c : ContentAnalysis) : ℚ :=
  min 0.3 ((c.breakthroughCount : ℚ) * 0.1)

/-- Technical-domain component: first matching domain contributes
`min(0.2, matches * 0.05)` (lines 283-289). -/
def domainScore (c : ContentAnalysis) : ℚ :=
  if 0 < c.firstDomainMatches then min 0.2 ((c.firstDomainMatches : ℚ) * 0.05) else 0

/-- `WorthinessCalculator._calculate_emotion_score` (lines 303-326). -/
def emotionScore (c : ContentAnalysis) : ℚ :=
  (if c.positiveEndEmotion then 0.15 else 0)
  + (if c.negativeToPositive then 0.15 else 0)
  + (if c.eliteEndEmotion then 0.1 else 0)

/-- `WorthinessCalculator._calculate_specificity_score` (lines 328-371). -/
def specificityScore (c : ContentAnalysis) : ℚ :=
  (if c.hasNumericMetric then 0.05 else 0)
  + (if c.techMatches1 then 0.03 else 0)
  + (if c.techMatches2 then 0.03 else 0)
  + (if c.techMatches3 then 0.03 else 0)
  + (if c.hasTwoLongSentences then 0.05 else 0)
  + min 0.05 ((c.actionVerbCount : ℚ) * 0.02)

/-- `WorthinessCalculator._calculate_reflection_depth` (lines 269-301):
sum of the four sub-scores, clamped to 1. -/
def reflectionDepthScore (c : ContentAnalysis) : ℚ :=
  min 1 (breakthroughScore c + domainScore c + emotionScore c + specificityScore c)

/-- `AIBudgetService.get_daily_pulse_count` (ai_budget_service.py lines
412-418): `max(1, daily_pulses_enhanced * 8)`. -/
def get_daily_pulse_count (dailyPulsesEnhanced : ℕ) : ℕ :=
  max 1 (dailyPulsesEnhanced * 8)

/-- `WorthinessCalculator._calculate_frequency_bonus` (lines 373-393), on the
daily pulse count obtained from the budget service. -/
def frequencyBonus (dailyCount : ℕ) : ℚ :=
  if 5 ≤ dailyCount then 1
  else if 3 ≤ dailyCount then 0.7 + ((dailyCount : ℚ) - 3) * 0.15
  else if 2 ≤ dailyCount then 0.5 + ((dailyCount : ℚ) - 2) * 0.2
  else 0.3

/-- The weighted, capped combination of the four component scores
(`calculate_worthiness`, lines 177-191): weights are
`WORTHINESS_WEIGHTS = {content_length: 0.4, duration: 0.3,
reflection_depth: 0.2, frequency_bonus: 0.1}` and the sum is
`min(1.0, ...)`. -/
def combineWorthiness (L D R F : ℚ) : ℚ :=
  min 1 (L * 0.4 + D * 0.3 + R * 0.2 + F * 0.1)

/-- The inputs of `WorthinessCalculator.calculate_worthiness` after the
content analysis: total characters, the derived actual duration (which the
source computes from `start_time`/`stopped_at`, see
`_calculate_actual_duration`), the content-analysis results, and the daily
pulse count. -/
structure WorthinessInput where
  totalChars : ℕ
  actualDurationSeconds : ℤ
  content : ContentAnalysis
  dailyPulseCount : ℕ
deriving DecidableEq, Repr

/-- `WorthinessCalculator.calculate_worthiness` (lines 156-191). -/
def calculate_worthiness (inp : WorthinessInput) : ℚ :=
  combineWorthiness (lengthScore inp.totalChars)
    (durationScore inp.actualDurationSeconds)
    (reflectionDepthScore inp.content)
    (frequencyBonus inp.dailyPulseCount)

/-- A content analysis with no matches at all. -/
def emptyContent : ContentAnalysis :=
  ⟨0, 0, false, false, false, false, false, false, false, false, 0⟩

/-- A content analysis with a single breakthrough-word match. -/
def oneBreakthroughContent : ContentAnalysis :=
  ⟨1, 0, false, false, false, false, false, false, false, false, 0⟩

/-- A pulse whose `stopped_at` precedes `start_time` by one hour: the
derived actual duration is `-3600` seconds, the content is empty. -/
def negDurationInput : WorthinessInput :=
  ⟨0, -3600, emptyContent, 1⟩

/-- A 25-minute pulse with 100 characters of content and one breakthrough
word. -/
def sampleWorthinessInput : WorthinessInput :=
  ⟨100, 1500, oneBreakthroughContent, 1⟩

/-! ## Actual duration (`shared/models/pulse.py` lines 110-114 and
`worthiness_service.py` `_calculate_actual_duration`, lines 193-232) -/

/-- The timestamp fields of a `StopPulse`, in epoch seconds
(`(stop_dt - start_dt).total_seconds()` is exact on whole seconds). -/
structure StopPulseTimes where
  startTimeSec : ℤ
  stoppedAtSec : ℤ
  durationSeconds : ℤ
deriving DecidableEq, Repr

/-- `StopPulse.actual_duration_seconds` (pulse.py lines 110-114):
`int((stopped_at_dt - start_time_dt).total_seconds())`, returned without
clamping. -/
def actual_duration_seconds (p : StopPulseTimes) : ℤ :=
  p.stoppedAtSec - p.startTimeSec

/-- `WorthinessCalculator._calculate_actual_duration` (worthiness_service.py
lines 193-232): with both timestamps present, `min(elapsed, planned)`;
with either missing, fall back to `duration_seconds`. -/
def calculate_actual_duration (startTime stoppedAt : Option ℤ)
    (durationSeconds : ℤ) : ℤ :=
  match startTime, stoppedAt with
  | some s, some t => min (t - s) durationSeconds
  | _, _ => durationSeconds

/-! ## Inverted timestamp (`shared/models/pulse.py` lines 166-183) -/

/-- Epoch seconds of `datetime(9999, 12, 31, 23, 59, 59, tzinfo=utc)`. -/
def FAR_FUTURE_EPOCH_SECONDS : ℕ := 253402300799

/-- Microseconds per second; `datetime` arithmetic has microsecond
resolution. -/
def MICROS_PER_SECOND : ℕ := 1000000

/-- `ArchivedPulse.inverted_timestamp` (pulse.py lines 166-183):
`int((datetime(9999,12,31,23,59,59) - stopped_at_dt).total_seconds())`,
on a `stopped_at` given in epoch microseconds (for timestamps not after the
far-future bound the `int(...)` truncation equals floor division). -/
def invertedTimestamp (stoppedAtMicros : ℕ) : ℕ :=
  (FAR_FUTURE_EPOCH_SECONDS * MICROS_PER_SECOND - stoppedAtMicros) / MICROS_PER_SECOND

/-! ## Start pulse (`handlers/api/start_pulse/start_pulse/services.py`
lines 79-107) -/

/-- The item written by `start_pulse`; every written item carries a
`pulse_id` (services.py line 51), which is what makes the conditional
expression below equivalent to item existence. -/
structure StartedItem where
  pulse_id : String
  intent : String
deriving DecidableEq, Repr

/-- The `started_pulses` table: partition key `user_id`, at most one item per
user. -/
def StartTable : Type := String → Option StartedItem

/-- `PulseCreationErrorAlreadyPresent`, raised on
`ConditionalCheckFailedException` (services.py lines 94-95). -/
inductive StartError
  | alreadyStarted
deriving DecidableEq, Repr

/-- `start_pulse` (start_pulse/start_pulse/services.py lines 79-95 of the
claim's range): `put_item` with `ConditionExpression
attribute_not_exists(pulse_id)` keyed by `user_id`. Because every stored
item has a `pulse_id` attribute, the condition fails exactly when an item
for the user exists; the failed conditional put leaves the table unchanged
and surfaces `AlreadyStarted`. -/
def start_pulse_op (tbl : StartTable) (userId : String) (item : StartedItem) :
    StartTable × Except StartError StartedItem :=
  match tbl userId with
  | some _ => (tbl, .error .alreadyStarted)
  | none => (fun u => if u = userId then some item else tbl u, .ok item)

/-- A sequence of `start_pulse` calls by one user with no intervening stop. -/
def start_pulse_seq (userId : String) :
    List StartedItem → StartTable → StartTable × List (Except StartError StartedItem)
  | [], tbl => (tbl, [])
  | item :: rest, tbl =>
    let step := start_pulse_op tbl userId item
    let tail := start_pulse_seq userId rest step.1
    (tail.1, step.2 :: tail.2)

/-! ## Stop pulse (`handlers/api/stop_pulse/services.py` lines 85-130,
identical to `shared/services/pulse.py` lines 243-288) -/

/-- The per-user / per-pulse state that `stop_pulse` touches: the user's
`started_pulses` row and whether the `StoppedPulse` row for that pulse
exists. -/
structure UserPulseState where
  started : Option StartedItem
  stoppedPresent : Bool
deriving DecidableEq, Repr

/-- The outcome of one `stop_pulse` call: either the uncaught
`AttributeError` (when no started pulse exists, `_delete_start_pulse`
returns `None` and `stop_pulse` calls `response.get("Attributes", None)` on
it — stop_pulse/services.py line 108), or a normal return of
`StopPulse | None`. -/
inductive StopResult
  | raisedAttributeError
  | returned (r : Option StartedItem)
deriving DecidableEq, Repr

/-- `stop_pulse` (stop_pulse/services.py lines 85-130).
`insertFails` injects a storage failure of `_send_pulse_to_ingestion`
(its `except` arms return `None`). Source behaviour: delete-returning-old on
the started pulse; when no item existed, `_delete_start_pulse` returns
`None` and the subsequent `response.get` raises an uncaught
`AttributeError`; otherwise insert the `StoppedPulse` — and if that insert
fails, return `None` with no compensating write of any kind. -/
def stop_pulse_run (s : UserPulseState) (insertFails : Bool) :
    UserPulseState × StopResult :=
  match s.started with
  | none => (s, .raisedAttributeError)
  | some item =>
    if insertFails then (⟨none, s.stoppedPresent⟩, .returned none)
    else (⟨none, true⟩, .returned (some item))

/-! ## Archive orchestrator (`handlers/events/pure_ingest/pure_ingest/app.py`
lines 139-180 and 255-288) -/

/-- The state the archive handler touches for one `pulse_id`: how many
`ArchivedPulse` rows exist for it (the conditional insert keeps this at most
1) and whether the `StoppedPulse` row is still present. -/
structure ArchiveState where
  archivedCount : ℕ
  stoppedPresent : Bool
deriving DecidableEq, Repr

/-- `store_ingested_pulse` (pure_ingest/app.py lines 255-288): `put_item`
with `ConditionExpression attribute_not_exists(pulse_id)`; a
`ConditionalCheckFailedException` is a `ClientError`, and every `except` arm
returns `False`. -/
def store_ingested_pulse (s : ArchiveState) : ArchiveState × Bool :=
  if s.archivedCount = 0 then ({ s with archivedCount := 1 }, true)
  else (s, false)

/-- The archive steps of `handler` (pure_ingest/app.py lines 139-180):
insert the `ArchivedPulse`; only if that succeeded, delete the
`StoppedPulse` and report success, else report
`{"success": False, "error": "Failed to store pulse"}` without deleting. -/
def pure_ingest_handler (s : ArchiveState) : ArchiveState × Bool :=
  let step := store_ingested_pulse s
  if step.2 then ({ step.1 with stoppedPresent := false }, true)
  else (step.1, false)

/-- Replaying the same stream record `n` times: the handler applied `n`
times, collecting each delivery's reported success flag. -/
def replayIngest : ℕ → ArchiveState → ArchiveState × List Bool
  | 0, s => (s, [])
  | n + 1, s =>
    let step := pure_ingest_handler s
    let tail := replayIngest n step.1
    (tail.1, step.2 :: tail.2)

/-! ## Cost estimation (`ai_selection/app.py` lines 142-184 and
`bedrock_enhancement/bedrock_enhancement/app.py` lines 147-177, 856-866) -/

/-- `estimate_enhancement_cost` input-token estimate (ai_selection/app.py
lines 153-156): `total_chars` capped at 400, then
`max(total_chars // 4, 1)` — floor division with a minimum of one token. -/
def estimatedInputTokens (totalChars : ℕ) : ℕ :=
  max (min totalChars 400 / 4) 1

/-- `estimate_enhancement_cost` output-token estimate (line 160):
`min(50 + estimated_input_tokens * 2, 300)`. -/
def estimatedOutputTokens (totalChars : ℕ) : ℕ :=
  min (50 + estimatedInputTokens totalChars * 2) 300

/-- Nova Lite input rate, dollars per 1K input tokens (line 163). -/
def NOVA_INPUT_RATE_DOLLARS : ℚ := 0.00006

/-- Nova Lite output rate, dollars per 1K output tokens (line 164). -/
def NOVA_OUTPUT_RATE_DOLLARS : ℚ := 0.00024

/-- The pre-clamp selection-stage estimate in cents (lines 163-170):
dollars-per-call converted to cents, plus the fixed `0.01` cent buffer.
No multiplication by the number of model calls happens here. -/
def selectionCostCents (totalChars : ℕ) : ℚ :=
  ((estimatedInputTokens totalChars : ℚ) / 1000 * NOVA_INPUT_RATE_DOLLARS
    + (estimatedOutputTokens totalChars : ℚ) / 1000 * NOVA_OUTPUT_RATE_DOLLARS) * 100
  + 0.01

/-- Round half to even at four decimal places, the idealisation of Python's
`round(x, 4)` (line 180) on exact rationals. -/
def round4 (x : ℚ) : ℚ :=
  (if x * 10000 - ⌊x * 10000⌋ < 1 / 2 then (⌊x * 10000⌋ : ℚ)
   else if 1 / 2 < x * 10000 - ⌊x * 10000⌋ then (⌊x * 10000⌋ : ℚ) + 1
   else if Even ⌊x * 10000⌋ then (⌊x * 10000⌋ : ℚ) else (⌊x * 10000⌋ : ℚ) + 1) / 10000

/-- `estimate_enhancement_cost` (ai_selection/app.py lines 142-184): the
per-call estimate clamped to the configured maximum
(`final_cost = min(total_cost_cents, max_cost)`), rounded to 4 decimals. -/
def estimate_enhancement_cost (totalChars : ℕ) (maxCostCents : ℚ) : ℚ :=
  round4 (min (selectionCostCents totalChars) maxCostCents)

/-- `estimate_bedrock_cost` (bedrock_enhancement/app.py lines 147-177):
`text_length * 0.8` estimated tokens at `base_rate` dollars per 1M tokens
(the regional multiplier is `1.0` for every listed region). -/
def estimate_bedrock_cost (textLength : ℕ) (baseRatePerMTokens : ℚ) : ℚ :=
  (textLength : ℚ) * 0.8 / 1000000 * baseRatePerMTokens

/-- The enricher's estimate in cents (lines 856-860): `base_cost * 4 * 100`
— the factor 4 for the three-call sequence is applied here, to the
`estimate_bedrock_cost` base, not to the selection-stage formula. -/
def bedrock_estimated_cost_cents (textLength : ℕ) (baseRatePerMTokens : ℚ) : ℚ :=
  estimate_bedrock_cost textLength baseRatePerMTokens * 4 * 100

/-- The enricher's refusal gate (lines 862-866): refuse the job iff the
estimate strictly exceeds `max_cost_cents`. -/
def bedrock_refuses (textLength : ℕ) (baseRatePerMTokens maxCostCents : ℚ) : Bool :=
  maxCostCents < bedrock_estimated_cost_cents textLength baseRatePerMTokens

/-! ## Listing archived pulses
(`handlers/api/get_ingested_pulse/get_ingested_pulse/services.py`
lines 27-63; the `handlers/api/get_ingested_pulse/services.py` copy differs
only in `MAX_NB_ITEMS` and a `Decimal` conversion) -/

/-- `MAX_NB_ITEMS` (get_ingested_pulse/services.py line 12). -/
def MAX_NB_ITEMS : ℕ := 100

/-- The error classes caught by `get_ingested_pulses`: `ClientError`,
`BotoCoreError`, and the catch-all `Exception`. -/
inductive StorageError
  | clientError
  | botoCoreError
  | unexpected
deriving DecidableEq, Repr

/-- A row of the `ingested_pulses` table as returned by the index query. -/
structure ArchivedRecord where
  pulse_id : String
  stoppedAtMicros : ℕ
deriving DecidableEq, Repr

/-- `get_ingested_pulses` (get_ingested_pulse/get_ingested_pulse/services.py
lines 27-63): cap `nb_items` at `MAX_NB_ITEMS`, run the index query
(modelled as a function from the requested limit to a result that either
errs or returns the rows), and on any caught error return the empty list. -/
def get_ingested_pulses (nbItems : ℕ)
    (query : ℕ → Except StorageError (List ArchivedRecord)) : List ArchivedRecord :=
  match query (min MAX_NB_ITEMS nbItems) with
  | .ok items => items
  | .error _ => []

/-! ## Helper lemmas -/

theorem lengthScore_nonneg (n : ℕ) : 0 ≤ lengthScore n := by
  unfold lengthScore
  split_ifs with h1 h2 h3 h4
  · norm_num
  · have : (250 : ℚ) ≤ (n : ℚ) := by exact_mod_cast h2
    linarith
  · have : (150 : ℚ) ≤ (n : ℚ) := by exact_mod_cast h3
    linarith
  · have : (50 : ℚ) ≤ (n : ℚ) := by exact_mod_cast h4
    linarith
  · have : (0 : ℚ) ≤ (n : ℚ) := by positivity
    linarith

theorem durationScore_nonneg (d : ℤ) (h : 0 ≤ d) : 0 ≤ durationScore d := by
  have hd : (0 : ℚ) ≤ (d : ℚ) := by exact_mod_cast h
  have hm : (0 : ℚ) ≤ (d : ℚ) / 60 := by positivity
  unfold durationScore
  split_ifs with h1 h2 h3 h4 h5 <;> linarith

theorem breakthroughScore_nonneg (c : ContentAnalysis) : 0 ≤ breakthroughScore c := by
  unfold breakthroughScore
  exact le_min (by norm_num) (by positivity)

theorem domainScore_nonneg (c : ContentAnalysis) : 0 ≤ domainScore c := by
  unfold domainScore
  split_ifs
  · exact le_min (by norm_num) (by positivity)
  · exact le_refl 0

theorem emotionScore_nonneg (c : ContentAnalysis) : 0 ≤ emotionScore c := by
  unfold emotionScore
  split_ifs <;> norm_num

theorem specificityScore_nonneg (c : ContentAnalysis) : 0 ≤ specificityScore c := by
  unfold specificityScore
  have h6 : (0 : ℚ) ≤ min 0.05 ((c.actionVerbCount : ℚ) * 0.02) :=
    le_min (by norm_num) (by positivity)
  split_ifs <;> linarith

theorem reflectionDepthScore_nonneg (c : ContentAnalysis) : 0 ≤ reflectionDepthScore c := by
  unfold reflectionDepthScore
  have h1 := breakthroughScore_nonneg c
  have h2 := domainScore_nonneg c
  have h3 := emotionScore_nonneg c
  have h4 := specificityScore_nonneg c
  exact le_min (by norm_num) (by linarith)

theorem frequencyBonus_nonneg (n : ℕ) : 0 ≤ frequencyBonus n := by
  unfold frequencyBonus
  split_ifs with h1 h2 h3
  · norm_num
  · have : (3 : ℚ) ≤ (n : ℚ) := by exact_mod_cast h2
    linarith
  · have : (2 : ℚ) ≤ (n : ℚ) := by exact_mod_cast h3
    linarith
  · norm_num

theorem should_enhance_afford_true {score est u : ℚ} {usage : DailyUsage}
    (hafford : (can_afford_enhancement usage est).1 = true) :
    should_enhance_with_ai true score est u usage
      = if EXCEPTIONAL_THRESHOLD ≤ score then ⟨true, .exceptional, some true⟩
        else if GOOD_THRESHOLD ≤ score then
          if u < min ((score - GOOD_THRESHOLD) / (EXCEPTIONAL_THRESHOLD - GOOD_THRESHOLD) * 1.5) 1
          then ⟨true, .goodRoll, some true⟩ else ⟨false, .lowRoll, some true⟩
        else ⟨false, .lowWorthiness, some true⟩ := by
  unfold should_enhance_with_ai
  rcases hca : can_afford_enhancement usage est with ⟨b, r⟩
  rw [hca] at hafford
  simp only [Prod.fst] at hafford
  subst hafford
  simp [hca]

theorem should_enhance_afford_false {score est u : ℚ} {usage : DailyUsage}
    (hafford : (can_afford_enhancement usage est).1 = false) :
    should_enhance_with_ai true score est u usage
      = ⟨false, .budget (can_afford_enhancement usage est).2, some true⟩ := by
  unfold should_enhance_with_ai
  rcases hca : can_afford_enhancement usage est with ⟨b, r⟩
  rw [hca] at hafford
  simp only [Prod.fst] at hafford
  subst hafford
  simp [hca]

/-! ## Claim C1 — budget admission -/

/-- Claim C1, amended: the budget gate admits iff the monthly spend is
strictly below the cap AND the two claimed inequalities hold; for every
strictly positive estimated cost this coincides with the claimed pair of
inequalities; and every budget rejection surfaces
`could_be_enhanced = true` from `should_enhance_with_ai`. -/
theorem budget_admission_rule (usage : DailyUsage) (est : ℚ) :
    ((can_afford_enhancement usage est).1 = true ↔
      (usage.monthlyCostCents < monthlyCapCents usage.userTier
        ∧ usage.monthlyCostCents + est ≤ monthlyCapCents usage.userTier
        ∧ usage.dailyCostCents + est ≤ totalDailyAvailable usage))
    ∧ (0 < est →
      ((can_afford_enhancement usage est).1 = true ↔
        (usage.monthlyCostCents + est ≤ monthlyCapCents usage.userTier
          ∧ usage.dailyCostCents + est ≤ totalDailyAvailable usage)))
    ∧ (∀ score u : ℚ, (can_afford_enhancement usage est).1 = false →
        (should_enhance_with_ai true score est u usage).shouldEnhance = false
        ∧ (should_enhance_with_ai true score est u usage).couldBeEnhanced = some true) := by
  have hmain : (can_afford_enhancement usage est).1 = true ↔
      (usage.monthlyCostCents < monthlyCapCents usage.userTier
        ∧ usage.monthlyCostCents + est ≤ monthlyCapCents usage.userTier
        ∧ usage.dailyCostCents + est ≤ totalDailyAvailable usage) := by
    unfold can_afford_enhancement
    split_ifs with h1 h2 h3
    · simp only [Prod.fst, Bool.false_eq_true, false_iff]
      rintro ⟨ha, _, _⟩
      linarith
    · simp only [Prod.fst, Bool.false_eq_true, false_iff]
      rintro ⟨_, hb, _⟩
      linarith
    · simp only [Prod.fst, Bool.false_eq_true, false_iff]
      rintro ⟨_, _, hc⟩
      linarith
    · simp only [Prod.fst, true_iff]
      exact ⟨by linarith, by linarith, by linarith⟩
  refine ⟨hmain, fun hpos => ?_, fun score u hfail => ?_⟩
  · rw [hmain]
    constructor
    · rintro ⟨_, hb, hc⟩
      exact ⟨hb, hc⟩
    · rintro ⟨hb, hc⟩
      exact ⟨by linarith, hb, hc⟩
  · rw [should_enhance_afford_false hfail]
    exact ⟨rfl, rfl⟩

/-- Claim C1, counterexample to the claim as stated: at estimated cost `0`
with the monthly spend exactly at the cap, both claimed inequalities hold,
yet `can_afford_enhancement` rejects (its first check is
`monthly_cost_cents >= monthly_cap_cents`). -/
theorem budget_admission_claim_cex :
    usageAtMonthlyCap.monthlyCostCents + 0 ≤ monthlyCapCents usageAtMonthlyCap.userTier
    ∧ usageAtMonthlyCap.dailyCostCents + 0 ≤ totalDailyAvailable usageAtMonthlyCap
    ∧ (can_afford_enhancement usageAtMonthlyCap 0).1 = false := by
  refine ⟨by norm_num [usageAtMonthlyCap, monthlyCapCents], ?_, ?_⟩
  · norm_num [usageAtMonthlyCap, totalDailyAvailable, dailyBaseCents]
  · norm_num [usageAtMonthlyCap, can_afford_enhancement, monthlyCapCents]

/-- Claim C1, witness: the amended rule applied to a concrete usage
snapshot and cost. -/
theorem budget_admission_rule_witness :
    ((can_afford_enhancement usageAtMonthlyCap 1).1 = true ↔
      (usageAtMonthlyCap.monthlyCostCents < monthlyCapCents usageAtMonthlyCap.userTier
        ∧ usageAtMonthlyCap.monthlyCostCents + 1 ≤ monthlyCapCents usageAtMonthlyCap.userTier
        ∧ usageAtMonthlyCap.dailyCostCents + 1 ≤ totalDailyAvailable usageAtMonthlyCap))
    ∧ (0 < (1 : ℚ) →
      ((can_afford_enhancement usageAtMonthlyCap 1).1 = true ↔
        (usageAtMonthlyCap.monthlyCostCents + 1 ≤ monthlyCapCents usageAtMonthlyCap.userTier
          ∧ usageAtMonthlyCap.dailyCostCents + 1 ≤ totalDailyAvailable usageAtMonthlyCap)))
    ∧ (∀ score u : ℚ, (can_afford_enhancement usageAtMonthlyCap 1).1 = false →
        (should_enhance_with_ai true score 1 u usageAtMonthlyCap).shouldEnhance = false
        ∧ (should_enhance_with_ai true score 1 u usageAtMonthlyCap).couldBeEnhanced = some true) :=
  budget_admission_rule usageAtMonthlyCap 1

/-! ## Claim C5 — worthiness combination, bounds, monotonicity -/

/-- Claim C5, amended: the worthiness score is the fixed linear combination
`0.4·L + 0.3·D + 0.2·R + 0.1·F` capped at 1; it lies in `[0,1]` whenever the
derived actual duration is nonnegative (for `stopped_at` earlier than
`start_time` the duration component, hence the score, can go negative); and
the capped combination is monotone non-decreasing in each component with the
others held fixed. -/
theorem worthiness_formula_bounds_monotone (inp : WorthinessInput)
    (h : 0 ≤ inp.actualDurationSeconds) :
    calculate_worthiness inp
      = min 1 (lengthScore inp.totalChars * 0.4
          + durationScore inp.actualDurationSeconds * 0.3
          + reflectionDepthScore inp.content * 0.2
          + frequencyBonus inp.dailyPulseCount * 0.1)
    ∧ 0 ≤ calculate_worthiness inp
    ∧ calculate_worthiness inp ≤ 1
    ∧ (∀ L₁ L₂ D R F : ℚ, L₁ ≤ L₂ → combineWorthiness L₁ D R F ≤ combineWorthiness L₂ D R F)
    ∧ (∀ L D₁ D₂ R F : ℚ, D₁ ≤ D₂ → combineWorthiness L D₁ R F ≤ combineWorthiness L D₂ R F)
    ∧ (∀ L D R₁ R₂ F : ℚ, R₁ ≤ R₂ → combineWorthiness L D R₁ F ≤ combineWorthiness L D R₂ F)
    ∧ (∀ L D R F₁ F₂ : ℚ, F₁ ≤ F₂ → combineWorthiness L D R F₁ ≤ combineWorthiness L D R F₂) := by
  have hL := lengthScore_nonneg inp.totalChars
  have hD := durationScore_nonneg inp.actualDurationSeconds h
  have hR := reflectionDepthScore_nonneg inp.content
  have hF := frequencyBonus_nonneg inp.dailyPulseCount
  refine ⟨rfl, ?_, ?_, ?_, ?_, ?_, ?_⟩
  · simp only [calculate_worthiness, combineWorthiness]
    exact le_min (by norm_num) (by linarith)
  · simp only [calculate_worthiness, combineWorthiness]
    exact min_le_left _ _
  · intro L₁ L₂ D R F hle
    simp only [combineWorthiness]
    exact min_le_min le_rfl (by linarith)
  · intro L D₁ D₂ R F hle
    simp only [combineWorthiness]
    exact min_le_min le_rfl (by linarith)
  · intro L D R₁ R₂ F hle
    simp only [combineWorthiness]
    exact min_le_min le_rfl (by linarith)
  · intro L D R F₁ F₂ hle
    simp only [combineWorthiness]
    exact min_le_min le_rfl (by linarith)

/-- Claim C5, counterexample to "score ∈ [0,1] for all inputs": a pulse
whose `stopped_at` precedes `start_time` by an hour (derived actual duration
`-3600 s`), empty content and a single daily pulse gives a strictly negative
worthiness score. -/
theorem worthiness_below_zero_cex :
    calculate_worthiness negDurationInput = -33 / 100
    ∧ ¬ (0 : ℚ) ≤ -33 / 100 := by
  constructor
  · norm_num [calculate_worthiness, negDurationInput, emptyContent, combineWorthiness,
      lengthScore, durationScore, reflectionDepthScore, breakthroughScore, domainScore,
      emotionScore, specificityScore, frequencyBonus]
  · norm_num

/-- Claim C5, witness: the amended statement at a concrete 25-minute pulse. -/
theorem worthiness_formula_witness :
    (0 : ℤ) ≤ sampleWorthinessInput.actualDurationSeconds
    ∧ (calculate_worthiness sampleWorthinessInput
        = min 1 (lengthScore sampleWorthinessInput.totalChars * 0.4
            + durationScore sampleWorthinessInput.actualDurationSeconds * 0.3
            + reflectionDepthScore sampleWorthinessInput.content * 0.2
            + frequencyBonus sampleWorthinessInput.dailyPulseCount * 0.1)
      ∧ 0 ≤ calculate_worthiness sampleWorthinessInput
      ∧ calculate_worthiness sampleWorthinessInput ≤ 1
      ∧ (∀ L₁ L₂ D R F : ℚ, L₁ ≤ L₂ → combineWorthiness L₁ D R F ≤ combineWorthiness L₂ D R F)
      ∧ (∀ L D₁ D₂ R F : ℚ, D₁ ≤ D₂ → combineWorthiness L D₁ R F ≤ combineWorthiness L D₂ R F)
      ∧ (∀ L D R₁ R₂ F : ℚ, R₁ ≤ R₂ → combineWorthiness L D R₁ F ≤ combineWorthiness L D R₂ F)
      ∧ (∀ L D R F₁ F₂ : ℚ, F₁ ≤ F₂ → combineWorthiness L D R F₁ ≤ combineWorthiness L D R F₂)) :=
  ⟨by norm_num [sampleWorthinessInput],
    worthiness_formula_bounds_monotone sampleWorthinessInput
      (by norm_num [sampleWorthinessInput])⟩

/-! ## Claim C6 — value-first gating and admission monotonicity -/

/-- Claim C6: with the budget admitted, a score at or above `EXCEPTIONAL`
always accepts; a score in `[GOOD, EXCEPTIONAL)` accepts exactly when the
uniform draw is below `min(1, 1.5·(score−GOOD)/(EXCEPTIONAL−GOOD))`; a score
below `GOOD` always rejects; acceptance is exactly `u < acceptProbability`,
and `acceptProbability` is monotone non-decreasing in the score. -/
theorem value_first_decision_cases (score est u : ℚ) (usage : DailyUsage)
    (hu0 : 0 ≤ u) (hu1 : u < 1)
    (hafford : (can_afford_enhancement usage est).1 = true) :
    (EXCEPTIONAL_THRESHOLD ≤ score →
      (should_enhance_with_ai true score est u usage).shouldEnhance = true)
    ∧ (GOOD_THRESHOLD ≤ score → score < EXCEPTIONAL_THRESHOLD →
      ((should_enhance_with_ai true score est u usage).shouldEnhance = true
        ↔ u < min 1 (1.5 * (score - GOOD_THRESHOLD) / (EXCEPTIONAL_THRESHOLD - GOOD_THRESHOLD))))
    ∧ (score < GOOD_THRESHOLD →
      (should_enhance_with_ai true score est u usage).shouldEnhance = false)
    ∧ ((should_enhance_with_ai true score est u usage).shouldEnhance = true
        ↔ u < acceptProbability score)
    ∧ (∀ s₁ s₂ : ℚ, s₁ ≤ s₂ → acceptProbability s₁ ≤ acceptProbability s₂) := by
  rw [should_enhance_afford_true hafford]
  have hmin : min ((score - GOOD_THRESHOLD) / (EXCEPTIONAL_THRESHOLD - GOOD_THRESHOLD) * 1.5) 1
      = min 1 (1.5 * (score - GOOD_THRESHOLD) / (EXCEPTIONAL_THRESHOLD - GOOD_THRESHOLD)) := by
    rw [min_comm]
    ring_nf
  refine ⟨?_, ?_, ?_, ?_, ?_⟩
  · intro hexc
    simp [if_pos hexc]
  · intro hgood hlt
    rw [if_neg (by linarith), if_pos hgood]
    by_cases hup : u < min ((score - GOOD_THRESHOLD) / (EXCEPTIONAL_THRESHOLD - GOOD_THRESHOLD) * 1.5) 1
    · rw [if_pos hup]
      simp only [true_iff]
      rw [hmin] at hup
      exact hup
    · rw [if_neg hup]
      simp only [Bool.false_eq_true, false_iff]
      rw [hmin] at hup
      exact hup
  · intro hlow
    rw [if_neg (by unfold EXCEPTIONAL_THRESHOLD GOOD_THRESHOLD at *; linarith),
      if_neg (by linarith)]
  · unfold acceptProbability
    by_cases hexc : EXCEPTIONAL_THRESHOLD ≤ score
    · simp only [if_pos hexc]
      simpa using hu1
    · rw [if_neg hexc, if_neg hexc]
      by_cases hgood : GOOD_THRESHOLD ≤ score
      · rw [if_pos hgood, if_pos hgood]
        by_cases hup : u < min ((score - GOOD_THRESHOLD) / (EXCEPTIONAL_THRESHOLD - GOOD_THRESHOLD) * 1.5) 1
        · rw [if_pos hup]
          simpa using hup
        · rw [if_neg hup]
          simpa using hup
      · rw [if_neg hgood, if_neg hgood]
        simp only [Bool.false_eq_true, false_iff, not_lt]
        exact hu0
  · intro s₁ s₂ hle
    unfold acceptProbability EXCEPTIONAL_THRESHOLD GOOD_THRESHOLD
    have key : ∀ s : ℚ, (s - 0.4) / ((0.8 : ℚ) - 0.4) * 1.5 = s * (15 / 4) - 3 / 2 := by
      intro s
      ring
    simp only [key]
    split_ifs <;>
      first
        | linarith
        | exact min_le_right _ _
        | exact min_le_min (by linarith) le_rfl
        | exact le_min (by linarith) (by norm_num)

/-- Claim C6, witness: the gating cases at score `0.6`, draw `0.5`, cost `1`
cent, on a fresh free-tier usage snapshot. -/
theorem value_first_decision_cases_witness :
    (0 : ℚ) ≤ 0.5 ∧ (0.5 : ℚ) < 1
    ∧ (can_afford_enhancement ⟨0, 0, 0, .free⟩ 1).1 = true
    ∧ ((EXCEPTIONAL_THRESHOLD ≤ (0.6 : ℚ) →
        (should_enhance_with_ai true 0.6 1 0.5 ⟨0, 0, 0, .free⟩).shouldEnhance = true)
      ∧ (GOOD_THRESHOLD ≤ (0.6 : ℚ) → (0.6 : ℚ) < EXCEPTIONAL_THRESHOLD →
        ((should_enhance_with_ai true 0.6 1 0.5 ⟨0, 0, 0, .free⟩).shouldEnhance = true
          ↔ (0.5 : ℚ) < min 1 (1.5 * (0.6 - GOOD_THRESHOLD) / (EXCEPTIONAL_THRESHOLD - GOOD_THRESHOLD))))
      ∧ ((0.6 : ℚ) < GOOD_THRESHOLD →
        (should_enhance_with_ai true 0.6 1 0.5 ⟨0, 0, 0, .free⟩).shouldEnhance = false)
      ∧ ((should_enhance_with_ai true 0.6 1 0.5 ⟨0, 0, 0, .free⟩).shouldEnhance = true
          ↔ (0.5 : ℚ) < acceptProbability 0.6)
      ∧ (∀ s₁ s₂ : ℚ, s₁ ≤ s₂ → acceptProbability s₁ ≤ acceptProbability s₂)) :=
  ⟨by norm_num, by norm_num,
    by norm_num [can_afford_enhancement, monthlyCapCents, totalDailyAvailable, dailyBaseCents],
    value_first_decision_cases 0.6 1 0.5 ⟨0, 0, 0, .free⟩ (by norm_num) (by norm_num)
      (by norm_num [can_afford_enhancement, monthlyCapCents, totalDailyAvailable, dailyBaseCents])⟩

/-! ## Claim C3 — actual duration -/

/-- Claim C3, amended: `StopPulse.actual_duration_seconds` is the raw
elapsed time `stopped_at − start_time` with no clamping, while the
worthiness calculator's `_calculate_actual_duration` (with both timestamps
present) is `min(stopped_at − start_time, duration_seconds)`; the latter
never exceeds `duration_seconds`, and it is nonnegative provided
`stopped_at ≥ start_time`. -/
theorem actual_duration_characterisation (s t d : ℤ) (hd : 1 ≤ d) (hst : s ≤ t) :
    actual_duration_seconds ⟨s, t, d⟩ = t - s
    ∧ calculate_actual_duration (some s) (some t) d = min (t - s) d
    ∧ 0 ≤ calculate_actual_duration (some s) (some t) d
    ∧ calculate_actual_duration (some s) (some t) d ≤ d := by
  refine ⟨rfl, rfl, ?_, ?_⟩
  · exact le_min (by linarith) (by linarith)
  · exact min_le_right _ _

/-- Claim C3, counterexample to the claim as stated: a pulse stopped 100
seconds after start with a declared duration of 50 seconds has
`actual_duration_seconds = 100`, not `min(100, 50) = 50`, and it violates
`actual_duration_seconds ≤ duration_seconds`. -/
theorem actual_duration_claim_cex :
    actual_duration_seconds ⟨0, 100, 50⟩ = 100
    ∧ min ((100 : ℤ) - 0) 50 = 50
    ∧ ¬ actual_duration_seconds ⟨0, 100, 50⟩ ≤ (50 : ℤ) := by
  refine ⟨by decide, by decide, by decide⟩

/-- Claim C3, witness: the amended characterisation for a pulse stopped 30
seconds into a declared 60-second session. -/
theorem actual_duration_characterisation_witness :
    (1 : ℤ) ≤ 60 ∧ (0 : ℤ) ≤ 30
    ∧ (actual_duration_seconds ⟨0, 30, 60⟩ = 30 - 0
      ∧ calculate_actual_duration (some 0) (some 30) 60 = min (30 - 0) 60
      ∧ 0 ≤ calculate_actual_duration (some 0) (some 30) 60
      ∧ calculate_actual_duration (some 0) (some 30) 60 ≤ 60) :=
  ⟨by decide, by decide, actual_duration_characterisation 0 30 60 (by decide) (by decide)⟩

/-! ## Claim C9 — inverted timestamp ordering -/

/-- Claim C9, amended: `inverted_timestamp` is antitone (non-strictly) in
`stopped_at`; it is strictly smaller when the later pulse stops at least one
whole second later; and, conversely, ascending `inverted_timestamp` order
can only invert `stopped_at` order within the same second (sub-second ties
are possible because `int(total_seconds())` truncates to whole seconds). -/
theorem inverted_timestamp_antitone (t₁ t₂ : ℕ)
    (h₁ : t₁ ≤ FAR_FUTURE_EPOCH_SECONDS * MICROS_PER_SECOND)
    (h₂ : t₂ ≤ FAR_FUTURE_EPOCH_SECONDS * MICROS_PER_SECOND) :
    (t₁ ≤ t₂ → invertedTimestamp t₂ ≤ invertedTimestamp t₁)
    ∧ (t₁ + MICROS_PER_SECOND ≤ t₂ → invertedTimestamp t₂ < invertedTimestamp t₁)
    ∧ (invertedTimestamp t₂ ≤ invertedTimestamp t₁ → t₁ < t₂ + MICROS_PER_SECOND) := by
  have hstrict : ∀ a b : ℕ, b ≤ FAR_FUTURE_EPOCH_SECONDS * MICROS_PER_SECOND →
      a + MICROS_PER_SECOND ≤ b →
      invertedTimestamp b < invertedTimestamp a := by
    intro a b hb hab
    simp only [invertedTimestamp, FAR_FUTURE_EPOCH_SECONDS, MICROS_PER_SECOND] at *
    have hAB : (253402300799000000 - b) + 1000000 ≤ 253402300799000000 - a := by omega
    have hstep : (253402300799000000 - b) / 1000000
        < ((253402300799000000 - b) + 1000000) / 1000000 := by
      rw [Nat.add_div_right _ (by norm_num)]
      omega
    exact lt_of_lt_of_le hstep (Nat.div_le_div_right hAB)
  refine ⟨?_, hstrict t₁ t₂ h₂, ?_⟩
  · intro h
    unfold invertedTimestamp
    exact Nat.div_le_div_right (Nat.sub_le_sub_left h _)
  · intro hinv
    by_contra hcon
    push_neg at hcon
    exact absurd hinv (not_le.mpr (hstrict t₂ t₁ h₁ hcon))

/-- Claim C9, counterexample to "the later `stopped_at` has the smaller
`inverted_timestamp`": two stops 0.5 s apart (epoch microseconds
…200000 and …700000) truncate to the same whole-second value. -/
theorem inverted_timestamp_tie_cex :
    1700000000200000 < 1700000000700000
    ∧ invertedTimestamp 1700000000200000 = invertedTimestamp 1700000000700000 := by
  constructor
  · norm_num
  · norm_num [invertedTimestamp, FAR_FUTURE_EPOCH_SECONDS, MICROS_PER_SECOND]

/-- Claim C9, witness: the amended ordering facts for two stops two seconds
apart. -/
theorem inverted_timestamp_antitone_witness :
    (1000000 : ℕ) ≤ FAR_FUTURE_EPOCH_SECONDS * MICROS_PER_SECOND
    ∧ (3000000 : ℕ) ≤ FAR_FUTURE_EPOCH_SECONDS * MICROS_PER_SECOND
    ∧ (((1000000 : ℕ) ≤ 3000000 → invertedTimestamp 3000000 ≤ invertedTimestamp 1000000)
      ∧ (1000000 + MICROS_PER_SECOND ≤ 3000000 →
          invertedTimestamp 3000000 < invertedTimestamp 1000000)
      ∧ (invertedTimestamp 3000000 ≤ invertedTimestamp 1000000 →
          1000000 < 3000000 + MICROS_PER_SECOND)) :=
  ⟨by norm_num [FAR_FUTURE_EPOCH_SECONDS, MICROS_PER_SECOND],
    by norm_num [FAR_FUTURE_EPOCH_SECONDS, MICROS_PER_SECOND],
    inverted_timestamp_antitone 1000000 3000000
      (by norm_num [FAR_FUTURE_EPOCH_SECONDS, MICROS_PER_SECOND])
      (by norm_num [FAR_FUTURE_EPOCH_SECONDS, MICROS_PER_SECOND])⟩

/-! ## Claim C7 — single live start -/

theorem start_pulse_seq_stuck (userId : String) (items : List StartedItem)
    (tbl : StartTable) (item : StartedItem) (h : tbl userId = some item) :
    start_pulse_seq userId items tbl
      = (tbl, items.map fun _ => Except.error StartError.alreadyStarted) := by
  induction items with
  | nil => rfl
  | cons i rest ih =>
    simp only [start_pulse_seq, start_pulse_op, h, List.map_cons]
    rw [ih]

/-- Claim C7: starting from a state with no live pulse for the user, any
sequence of `start_pulse` calls with no intervening stop leaves exactly the
first call's pulse live (one `StartedPulse`), every later call fails with
`AlreadyStarted`, and the table is exactly the first insert — the failed
calls change nothing. -/
theorem single_live_start (tbl : StartTable) (userId : String)
    (first : StartedItem) (rest : List StartedItem) (h0 : tbl userId = none) :
    ((start_pulse_seq userId (first :: rest) tbl).1 userId = some first)
    ∧ (start_pulse_seq userId (first :: rest) tbl).2
        = Except.ok first :: rest.map (fun _ => Except.error StartError.alreadyStarted)
    ∧ ∀ u : String, (start_pulse_seq userId (first :: rest) tbl).1 u
        = if u = userId then some first else tbl u := by
  have htbl : (fun u => if u = userId then some first else tbl u) userId = some first := by
    simp
  simp only [start_pulse_seq, start_pulse_op, h0]
  rw [start_pulse_seq_stuck userId rest _ first htbl]
  exact ⟨by simp, rfl, fun u => rfl⟩

/-- A start table with no pulse for any user. -/
theorem single_live_start_witness :
    ((fun _ => none : StartTable) "user-1" = none)
    ∧ (((start_pulse_seq "user-1" [⟨"p1", "write"⟩, ⟨"p2", "read"⟩] (fun _ => none)).1 "user-1"
          = some ⟨"p1", "write"⟩)
      ∧ (start_pulse_seq "user-1" [⟨"p1", "write"⟩, ⟨"p2", "read"⟩] (fun _ => none)).2
          = Except.ok ⟨"p1", "write"⟩
            :: [(⟨"p2", "read"⟩ : StartedItem)].map (fun _ => Except.error StartError.alreadyStarted)
      ∧ ∀ u : String, (start_pulse_seq "user-1" [⟨"p1", "write"⟩, ⟨"p2", "read"⟩] (fun _ => none)).1 u
          = if u = "user-1" then some ⟨"p1", "write"⟩ else (fun _ => none : StartTable) u) :=
  ⟨rfl, single_live_start (fun _ => none) "user-1" ⟨"p1", "write"⟩ [⟨"p2", "read"⟩] rfl⟩

/-! ## Claim C2 — idempotent archive replay -/

theorem replayIngest_stuck (n : ℕ) (b : Bool) :
    replayIngest n ⟨1, b⟩ = (⟨1, b⟩, List.replicate n false) := by
  induction n with
  | zero => rfl
  | succ k ih =>
    simp only [replayIngest, pure_ingest_handler, store_ingested_pulse]
    norm_num [ih, List.replicate]

/-- Claim C2, amended: replaying the same stream record `n ≥ 1` times yields
exactly one `ArchivedPulse` (the conditional insert keeps the count at 1) and
the `StoppedPulse` is deleted; but on `Conflict` the handler does NOT assume
a prior successful archive: the first delivery reports success and each
subsequent delivery reports failure ("Failed to store pulse") without
touching the tables. -/
theorem idempotent_archive_replay (n : ℕ) (hn : 1 ≤ n) :
    (replayIngest n ⟨0, true⟩).1.archivedCount = 1
    ∧ (replayIngest n ⟨0, true⟩).1.stoppedPresent = false
    ∧ (replayIngest n ⟨0, true⟩).2 = true :: List.replicate (n - 1) false := by
  obtain ⟨k, rfl⟩ : ∃ k, n = k + 1 := ⟨n - 1, by omega⟩
  simp only [replayIngest, pure_ingest_handler, store_ingested_pulse]
  norm_num [replayIngest_stuck]

/-- Claim C2, counterexample to "on Conflict … proceed to delete the
StoppedPulse and report success": on the second delivery the conditional
insert conflicts, the handler reports failure, and a still-present
`StoppedPulse` row would not be deleted. -/
theorem archive_conflict_reports_failure_cex :
    (replayIngest 2 ⟨0, true⟩).2 = [true, false]
    ∧ (pure_ingest_handler ⟨1, true⟩).2 = false
    ∧ (pure_ingest_handler ⟨1, true⟩).1.stoppedPresent = true := by
  decide

/-- Claim C2, witness: three deliveries of the same record. -/
theorem idempotent_archive_replay_witness :
    (1 : ℕ) ≤ 3
    ∧ ((replayIngest 3 ⟨0, true⟩).1.archivedCount = 1
      ∧ (replayIngest 3 ⟨0, true⟩).1.stoppedPresent = false
      ∧ (replayIngest 3 ⟨0, true⟩).2 = true :: List.replicate (3 - 1) false) :=
  ⟨by norm_num, idempotent_archive_replay 3 (by norm_num)⟩

/-! ## Claim C4 — stop-pulse failure handling -/

/-- Claim C4, amended: when the delete-returning-old of the `StartedPulse`
succeeds but the insert of the `StoppedPulse` fails, `stop_pulse` emits no
compensating write and no `StopFailed` error kind exists in the code: it
returns a plain `None` (surfaced by the handler as a generic `BadRequest`),
with the `StartedPulse` already deleted and no `StoppedPulse` inserted —
the pulse is lost. (On success the `StoppedPulse` is inserted and
returned.) -/
theorem stop_pulse_failure_loses_pulse (s : UserPulseState) (item : StartedItem)
    (h : s.started = some item) :
    (stop_pulse_run s true).1.started = none
    ∧ (stop_pulse_run s true).1.stoppedPresent = s.stoppedPresent
    ∧ (stop_pulse_run s true).2 = .returned none
    ∧ (stop_pulse_run s false).1 = ⟨none, true⟩
    ∧ (stop_pulse_run s false).2 = .returned (some item) := by
  rcases s with ⟨st, sp⟩
  simp only at h
  subst h
  simp [stop_pulse_run]

/-- Claim C4, counterexample to "… emits a compensating delete … and
surfaces a StopFailed error, so no StartedPulse is lost …": with a live
start and a failing insert, the final state has neither a `StartedPulse`
nor a `StoppedPulse`, and the outcome is the ordinary `None` return — not a
`StopFailed` error (no such kind exists in `StopResult`, whose only error
case is the `AttributeError` of the no-live-pulse path). -/
theorem stop_pulse_failure_cex :
    (stop_pulse_run ⟨some ⟨"pulse-1", "focus"⟩, false⟩ true).1 = ⟨none, false⟩
    ∧ (stop_pulse_run ⟨some ⟨"pulse-1", "focus"⟩, false⟩ true).2 = .returned none :=
  ⟨rfl, rfl⟩

/-- Claim C4, witness: the amended statement at a concrete live pulse. -/
theorem stop_pulse_failure_loses_pulse_witness :
    ((⟨some ⟨"pulse-1", "focus"⟩, false⟩ : UserPulseState).started = some ⟨"pulse-1", "focus"⟩)
    ∧ ((stop_pulse_run ⟨some ⟨"pulse-1", "focus"⟩, false⟩ true).1.started = none
      ∧ (stop_pulse_run ⟨some ⟨"pulse-1", "focus"⟩, false⟩ true).1.stoppedPresent
          = (⟨some ⟨"pulse-1", "focus"⟩, false⟩ : UserPulseState).stoppedPresent
      ∧ (stop_pulse_run ⟨some ⟨"pulse-1", "focus"⟩, false⟩ true).2 = .returned none
      ∧ (stop_pulse_run ⟨some ⟨"pulse-1", "focus"⟩, false⟩ false).1 = ⟨none, true⟩
      ∧ (stop_pulse_run ⟨some ⟨"pulse-1", "focus"⟩, false⟩ false).2
          = .returned (some ⟨"pulse-1", "focus"⟩)) :=
  ⟨rfl, stop_pulse_failure_loses_pulse ⟨some ⟨"pulse-1", "focus"⟩, false⟩ ⟨"pulse-1", "focus"⟩ rfl⟩

/-! ## Claim C8 — cost estimation and the enricher's refusal gate -/

/-- Claim C8, amended: the selection-stage estimator uses input tokens
`max(⌊min(total_chars, 400)/4⌋, 1)` (floor division with a one-token
minimum, not a ceiling), output tokens `min(50 + 2·input, 300)`, and cost
`((input/1000)·0.00006 + (output/1000)·0.00024)·100 + 0.01` cents, clamped
to `max_cost` (so this estimate never exceeds the cap and is not multiplied
by 4); separately, the enricher estimates `(0.8·text_length/10⁶)·rate·4·100`
cents — the factor 4 lives here — and refuses the job exactly when that
estimate exceeds `max_cost_per_pulse_cents`. -/
theorem cost_estimation_rule (totalChars textLength : ℕ) (baseRate maxCost : ℚ) :
    estimatedInputTokens totalChars = max (min totalChars 400 / 4) 1
    ∧ estimatedOutputTokens totalChars = min (50 + 2 * estimatedInputTokens totalChars) 300
    ∧ selectionCostCents totalChars
        = ((estimatedInputTokens totalChars : ℚ) / 1000 * 0.00006
            + (estimatedOutputTokens totalChars : ℚ) / 1000 * 0.00024) * 100 + 0.01
    ∧ min (selectionCostCents totalChars) maxCost ≤ maxCost
    ∧ (bedrock_refuses textLength baseRate maxCost = true
        ↔ maxCost < (textLength : ℚ) * 0.8 / 1000000 * baseRate * 4 * 100) := by
  refine ⟨rfl, ?_, rfl, min_le_right _ _, ?_⟩
  · simp [estimatedOutputTokens, Nat.mul_comm]
  · simp [bedrock_refuses, bedrock_estimated_cost_cents, estimate_bedrock_cost]

/-- Claim C8, counterexample to the input-token count "⌈total_chars/4⌉":
at 5 characters the source computes `max(5 // 4, 1) = 1`, while the claimed
ceiling is 2. -/
theorem input_tokens_not_ceiling_cex :
    estimatedInputTokens 5 = 1
    ∧ ⌈(5 : ℚ) / 4⌉ = 2
    ∧ ¬ ((estimatedInputTokens 5 : ℤ) = ⌈(5 : ℚ) / 4⌉) := by
  have hc : ⌈(5 : ℚ) / 4⌉ = 2 := by norm_num [Int.ceil_eq_iff]
  refine ⟨rfl, hc, ?_⟩
  rw [show estimatedInputTokens 5 = 1 from rfl, hc]
  norm_num

/-! ## Claim C10 — error swallowing in the archive listing -/

/-- Claim C10: whatever storage error the index query raises (`ClientError`,
`BotoCoreError` or any other exception), `get_ingested_pulses` returns the
empty list, which is exactly the successful result for a user with no
archived pulses. -/
theorem list_archives_error_swallowing (nbItems : ℕ) (e : StorageError)
    (q : ℕ → Except StorageError (List ArchivedRecord))
    (hq : q (min MAX_NB_ITEMS nbItems) = .error e) :
    get_ingested_pulses nbItems q = []
    ∧ get_ingested_pulses nbItems (fun _ => .ok []) = [] := by
  constructor
  · simp [get_ingested_pulses, hq]
  · simp [get_ingested_pulses]

/-- Claim C10, witness: a query that raises `ClientError` at the default
page size. -/
theorem list_archives_error_swallowing_witness :
    ((fun _ => Except.error StorageError.clientError :
        ℕ → Except StorageError (List ArchivedRecord)) (min MAX_NB_ITEMS 20)
      = .error StorageError.clientError)
    ∧ (get_ingested_pulses 20 (fun _ => Except.error StorageError.clientError) = []
      ∧ get_ingested_pulses 20 (fun _ => .ok []) = []) :=
  ⟨rfl, list_archives_error_swallowing 20 StorageError.clientError
    (fun _ => Except.error StorageError.clientError) rfl⟩

end PulseShrine
